import Mathlib

/-!
Verification development for the datazod schema-to-SQL engine
(packages/zod-sql and packages/shared).

The definitions below are shallow embeddings of the TypeScript source:
* `SchemaNode` models a Zod schema tree (the runtime class hierarchy
  `ZodString`, `ZodNumber`, `ZodBoolean`, `ZodDate`, `ZodEnum`, `ZodArray`,
  `ZodObject`, `ZodOptional`, `ZodNullable`, `ZodDefault`, plus a catch-all
  for unrecognized node kinds).
* the type mappers, DDL assembler and flattening engine of
  `packages/zod-sql/src/zod-sql/index.ts`,
* the structure extractor of
  `packages/zod-sql/src/schema/structure-extractor.ts` together with the
  shared helpers of `packages/shared/src`,
* the migration engine of the migration module re-exported through
  `packages/zod-sql/src/maps/sqlite/index.ts` (`getTableColumns`,
  `getColumnDefinition`, `migrateTableSchema`).

Machine integers do not occur; all source arithmetic is on small JS numbers
used as list lengths / depths, modelled by `Nat`.
-/

namespace Datazod

/-- SQL dialects.  The TypeScript union is `'sqlite' | 'postgres' | 'mysql'`,
but at runtime any string can flow in; every `switch` in the source has a
`default` branch for such values.  `other s` models a runtime dialect string
outside the union. -/
inductive SQLDialect where
  | sqlite
  | postgres
  | mysql
  | other (s : String)
deriving DecidableEq

/-- A Zod schema tree.  `zString` carries whether a `datetime` check is
present, `zNumber` whether an `int` check is present (the only checks the
source inspects).  `zDefault` carries the default value already coerced to a
string, matching the source's `String(type._def.defaultValue())`.
`zUnknown` stands for any other Zod node kind (the source's permissive
fallback branch). -/
inductive SchemaNode where
  | zString (hasDatetime : Bool)
  | zNumber (isInt : Bool)
  | zBoolean
  | zDate
  | zEnum
  | zArray (elem : SchemaNode)
  | zObject (fields : List (String × SchemaNode))
  | zOptional (inner : SchemaNode)
  | zNullable (inner : SchemaNode)
  | zDefault (inner : SchemaNode) (value : String)
  | zUnknown

/-- The `.shape` accessor of a `ZodObject` (only ever applied to objects in
the source). -/
def shapeOf : SchemaNode → List (String × SchemaNode)
  | .zObject fields => fields
  | _ => []

/-- The single-step unwrap used by `createTableDDL` / `processNestedObject` /
`extractTableSchema`:
`if (t instanceof ZodNullable || t instanceof ZodOptional) t = t.unwrap()`. -/
def unwrapOnce : SchemaNode → SchemaNode
  | .zNullable inner => inner
  | .zOptional inner => inner
  | t => t

/-- Zod v3 `isOptional()`: `safeParse(undefined).success`.  `ZodOptional`
accepts `undefined` directly, `ZodDefault` substitutes its default for
`undefined` (hence accepts it), `ZodNullable` delegates non-`null` input to
its inner type. -/
def acceptsUndefined : SchemaNode → Bool
  | .zOptional _ => true
  | .zDefault _ _ => true
  | .zNullable inner => acceptsUndefined inner
  | _ => false

/-- Zod v3 `isNullable()`: `safeParse(null).success`.  `ZodNullable` accepts
`null` directly; `ZodOptional` and `ZodDefault` delegate non-`undefined`
input to their inner type. -/
def acceptsNull : SchemaNode → Bool
  | .zNullable _ => true
  | .zOptional inner => acceptsNull inner
  | .zDefault inner _ => acceptsNull inner
  | _ => false

/-- `isNullable` of `zod-sql/index.ts`:
`zodType.isOptional() || zodType.isNullable()`. -/
def zodIsNullable (t : SchemaNode) : Bool :=
  acceptsUndefined t || acceptsNull t

/-- `isInteger` of `zod-sql/index.ts` (and `shared/src/utils/validators.ts`):
a `ZodNumber` whose checks contain `int`. -/
def isInteger : SchemaNode → Bool
  | .zNumber isInt => isInt
  | _ => false

/-- `mapZodToSQLite` of `zod-sql/index.ts`.  The `datetime` string branch
and the plain string branch both yield `TEXT`. -/
def mapZodToSQLite : SchemaNode → String
  | .zNullable inner => mapZodToSQLite inner
  | .zOptional inner => mapZodToSQLite inner
  | .zString hasDatetime => if hasDatetime then "TEXT" else "TEXT"
  | .zNumber isInt => if isInt then "INTEGER" else "REAL"
  | .zBoolean => "BOOLEAN"
  | .zArray _ => "TEXT"
  | .zObject _ => "TEXT"
  | .zEnum => "TEXT"
  | .zDate => "TEXT"
  | _ => "TEXT"

/-- `mapZodToPostgres` of `zod-sql/index.ts`. -/
def mapZodToPostgres : SchemaNode → String
  | .zNullable inner => mapZodToPostgres inner
  | .zOptional inner => mapZodToPostgres inner
  | .zString hasDatetime => if hasDatetime then "TIMESTAMP WITH TIME ZONE" else "TEXT"
  | .zNumber isInt => if isInt then "INTEGER" else "DOUBLE PRECISION"
  | .zBoolean => "BOOLEAN"
  | .zArray _ => "JSONB"
  | .zObject _ => "JSONB"
  | .zEnum => "TEXT"
  | .zDate => "TIMESTAMP WITH TIME ZONE"
  | _ => "TEXT"

/-- `mapZodToMySQL` of `zod-sql/index.ts`. -/
def mapZodToMySQL : SchemaNode → String
  | .zNullable inner => mapZodToMySQL inner
  | .zOptional inner => mapZodToMySQL inner
  | .zString hasDatetime => if hasDatetime then "DATETIME" else "TEXT"
  | .zNumber isInt => if isInt then "INT" else "DOUBLE"
  | .zBoolean => "BOOLEAN"
  | .zArray _ => "JSON"
  | .zObject _ => "JSON"
  | .zEnum => "TEXT"
  | .zDate => "DATETIME"
  | _ => "TEXT"

/-- `mapZodToSql` of `zod-sql/index.ts`: dialect dispatch with
`case 'sqlite': default:` falling through to the SQLite mapper. -/
def mapZodToSql (zodType : SchemaNode) (dialect : SQLDialect) : String :=
  match dialect with
  | .postgres => mapZodToPostgres zodType
  | .mysql => mapZodToMySQL zodType
  | _ => mapZodToSQLite zodType

/-- `getQuoteChar` of `zod-sql/index.ts`:
backtick for mysql, double quote otherwise. -/
def getQuoteChar : SQLDialect → String
  | .mysql => "\x60"
  | _ => "\x22"

/-- `quoteIdentifier` of `zod-sql/index.ts`. -/
def quoteIdentifier (identifier : String) (dialect : SQLDialect) : String :=
  getQuoteChar dialect ++ identifier ++ getQuoteChar dialect

/-- `getTimestampColumns` of `zod-sql/index.ts`
(the sqlite arm is also the `default` arm). -/
def getTimestampColumns (dialect : SQLDialect) : List String :=
  match dialect with
  | .postgres =>
      [quoteIdentifier "created_at" dialect ++
         " TIMESTAMP WITH TIME ZONE NOT NULL DEFAULT NOW()",
       quoteIdentifier "updated_at" dialect ++
         " TIMESTAMP WITH TIME ZONE NOT NULL DEFAULT NOW()"]
  | .mysql =>
      [quoteIdentifier "created_at" dialect ++
         " TIMESTAMP NOT NULL DEFAULT CURRENT_TIMESTAMP",
       quoteIdentifier "updated_at" dialect ++
         " TIMESTAMP NOT NULL DEFAULT CURRENT_TIMESTAMP ON UPDATE CURRENT_TIMESTAMP"]
  | _ =>
      [quoteIdentifier "created_at" dialect ++
         " TEXT NOT NULL DEFAULT (datetime(\x27now\x27))",
       quoteIdentifier "updated_at" dialect ++
         " TEXT NOT NULL DEFAULT (datetime(\x27now\x27))"]

/-- `'integer' | 'uuid'` of `AutoIdConfig.type`. -/
inductive AutoIdKind where
  | integer
  | uuid
deriving DecidableEq

/-- `AutoIdConfig` of `zod-sql/src/types.ts`: `enabled` required,
`name`/`type` optional. -/
structure AutoIdConfig where
  enabled : Bool
  name : Option String
  ty : Option AutoIdKind
deriving DecidableEq

/-- The `autoId?: boolean | AutoIdConfig` option. -/
inductive AutoIdOption where
  | abool (b : Bool)
  | aconfig (c : AutoIdConfig)
deriving DecidableEq

/-- JS truthiness of the raw `autoId` option value: `false` is falsy, every
object (even `{enabled: false}`) is truthy. -/
def AutoIdOption.truthy : AutoIdOption → Bool
  | .abool b => b
  | .aconfig _ => true

/-- JS `x || 'id'` applied to an optional name (absent or empty → `"id"`). -/
def jsNameOrId : Option String → String
  | some s => if s = "" then "id" else s
  | none => "id"

/-- `getAutoIdColumn` of `zod-sql/index.ts`: builds `actualConfig` (boolean
shorthand or spread over `{name:'id', type:'integer'}`), returns `""` when
not enabled, otherwise the dialect-specific auto-ID column definition
(sqlite arm doubles as the `default` arm). -/
def getAutoIdColumn (dialect : SQLDialect) (config : AutoIdOption) : String :=
  let enabled : Bool := match config with
    | .abool b => b
    | .aconfig c => c.enabled
  let cfgName : Option String := match config with
    | .abool _ => some "id"
    | .aconfig c => some (c.name.getD "id")
  let cfgTy : AutoIdKind := match config with
    | .abool _ => .integer
    | .aconfig c => c.ty.getD .integer
  if !enabled then ""
  else
    let idName := quoteIdentifier (jsNameOrId cfgName) dialect
    match dialect with
    | .postgres =>
        if cfgTy = .uuid then idName ++ " UUID PRIMARY KEY DEFAULT gen_random_uuid()"
        else idName ++ " SERIAL PRIMARY KEY"
    | .mysql =>
        if cfgTy = .uuid then idName ++ " CHAR(36) PRIMARY KEY DEFAULT (UUID())"
        else idName ++ " INT AUTO_INCREMENT PRIMARY KEY"
    | _ =>
        if cfgTy = .uuid then idName ++ " TEXT PRIMARY KEY DEFAULT (uuid())"
        else idName ++ " INTEGER PRIMARY KEY AUTOINCREMENT"

/-- `ColumnPosition` (`'start' | 'end'`). -/
inductive ColumnPosition where
  | colStart
  | colEnd
deriving DecidableEq

/-- The `references` part of an `ExtraColumn`. -/
structure ColumnRef where
  table : String
  column : String
  onDelete : Option String
  onUpdate : Option String
deriving DecidableEq

/-- `ExtraColumn` of `zod-sql/src/types.ts`.  `notNull` keeps its three JS
states (absent / `true` / `false`) because the structure extractor treats
absent as `true` (`col.notNull !== false`) while the DDL builder treats it
as falsy. -/
structure ExtraColumn where
  name : String
  type : String
  notNull : Option Bool
  defaultValue : Option String
  primaryKey : Bool
  unique : Bool
  position : Option ColumnPosition
  references : Option ColumnRef
deriving DecidableEq

/-- `buildColumnDefinition` (local helper inside `createTableDDL`). -/
def buildColumnDefinition (column : ExtraColumn) (dialect : SQLDialect) : String :=
  let colDef := quoteIdentifier column.name dialect ++ " " ++ column.type
  let colDef := if column.notNull = some true then colDef ++ " NOT NULL" else colDef
  let colDef := match column.defaultValue with
    | some v => colDef ++ " DEFAULT " ++ v
    | none => colDef
  let colDef := if column.unique then colDef ++ " UNIQUE" else colDef
  let colDef := if column.primaryKey then colDef ++ " PRIMARY KEY" else colDef
  match column.references with
  | some r =>
      let colDef := colDef ++ " REFERENCES " ++ quoteIdentifier r.table dialect ++
        "(" ++ quoteIdentifier r.column dialect ++ ")"
      let colDef := match r.onDelete with
        | some x => colDef ++ " ON DELETE " ++ x
        | none => colDef
      match r.onUpdate with
      | some x => colDef ++ " ON UPDATE " ++ x
      | none => colDef
  | none => colDef

/-- `primaryKey?: string | string[]`. -/
inductive PrimaryKeyOption where
  | pkNone
  | pkSingle (s : String)
  | pkList (l : List String)
deriving DecidableEq

/-- JS truthiness of the raw `primaryKey` option (`""` is falsy, every
array — even `[]` — is truthy). -/
def PrimaryKeyOption.truthy : PrimaryKeyOption → Bool
  | .pkNone => false
  | .pkSingle s => !(s = "")
  | .pkList _ => true

/-- `TableOptions` of `zod-sql/src/types.ts` with the source's defaults
already resolved by the caller (`dialect = 'sqlite'`, `flattenDepth = 2`,
etc. are supplied explicitly at each use site below). -/
structure TableOptions where
  dialect : SQLDialect
  primaryKey : PrimaryKeyOption
  indexes : List (String × List String)
  flattenDepth : Nat
  extraColumns : List ExtraColumn
  timestamps : Bool
  autoId : AutoIdOption

/-- The number-type switch that `createTableDDL` and `processNestedObject`
both inline for `ZodNumber` fields (sqlite arm doubles as `default`). -/
def numberSqlTypeSwitch (isInt : Bool) (dialect : SQLDialect) : String :=
  match dialect with
  | .postgres => if isInt then "INTEGER" else "DOUBLE PRECISION"
  | .mysql => if isInt then "INT" else "DOUBLE"
  | _ => if isInt then "INTEGER" else "REAL"

/-- `primaryKey === key && !Array.isArray(primaryKey)` (strict string
equality against the raw option). -/
def pkMatches (primaryKey : PrimaryKeyOption) (key : String) : Bool :=
  match primaryKey with
  | .pkSingle s => s == key
  | _ => false

/-- `processNestedObject` of `zod-sql/index.ts`: flattens a nested object to
depth `depth`; at depth 0 the (already unwrapped) object itself is emitted
as a single JSON column whose nullability is recomputed on that unwrapped
object. -/
def processNestedObject (pfx : String) (objectType : SchemaNode)
    (depth : Nat) (dialect : SQLDialect) : List String :=
  match depth with
  | 0 =>
      let sqlType := mapZodToSql objectType dialect
      let nullable := if zodIsNullable objectType then "" else " NOT NULL"
      [quoteIdentifier pfx dialect ++ " " ++ sqlType ++ nullable]
  | dep + 1 =>
      (shapeOf objectType).flatMap fun kv =>
        let colName := pfx ++ "_" ++ kv.1
        let unwrappedType := unwrapOnce kv.2
        match unwrappedType with
        | .zObject fields =>
            -- source guard `depth > 0` always holds on this branch
            processNestedObject colName (.zObject fields) dep dialect
        | .zNumber isInt =>
            let sqlType := numberSqlTypeSwitch isInt dialect
            let nullable := if zodIsNullable kv.2 then "" else " NOT NULL"
            [quoteIdentifier colName dialect ++ " " ++ sqlType ++ nullable]
        | u =>
            let sqlType := mapZodToSql u dialect
            let nullable := if zodIsNullable kv.2 then "" else " NOT NULL"
            [quoteIdentifier colName dialect ++ " " ++ sqlType ++ nullable]

/-- The per-field body of `createTableDDL`'s main loop. -/
def ddlFieldCols (primaryKey : PrimaryKeyOption) (flattenDepth : Nat)
    (dialect : SQLDialect) (key : String) (ty : SchemaNode) : List String :=
  let unwrappedType := unwrapOnce ty
  match unwrappedType, flattenDepth with
  | .zObject fields, dep + 1 =>
      processNestedObject key (.zObject fields) (dep + 1) dialect
  | .zNumber isInt, _ =>
      let sqlType := numberSqlTypeSwitch isInt dialect
      let nullable := if zodIsNullable ty then "" else " NOT NULL"
      let pkStr := if pkMatches primaryKey key then " PRIMARY KEY" else ""
      [quoteIdentifier key dialect ++ " " ++ sqlType ++ nullable ++ pkStr]
  | u, _ =>
      let sqlType := mapZodToSql u dialect
      let nullable := if zodIsNullable ty then "" else " NOT NULL"
      let pkStr := if pkMatches primaryKey key then " PRIMARY KEY" else ""
      [quoteIdentifier key dialect ++ " " ++ sqlType ++ nullable ++ pkStr]

/-- `mainCols` of `createTableDDL`: the schema fields in declaration
order. -/
def ddlMainCols (shape : List (String × SchemaNode))
    (primaryKey : PrimaryKeyOption) (flattenDepth : Nat)
    (dialect : SQLDialect) : List String :=
  shape.flatMap fun kv => ddlFieldCols primaryKey flattenDepth dialect kv.1 kv.2

/-- `startCols` of `createTableDDL`: auto-ID column (when the raw option is
truthy and the rendered definition is non-empty), timestamp columns, then
extras with `position: 'start'`. -/
def ddlStartCols (opts : TableOptions) : List String :=
  let autoIdCols :=
    if opts.autoId.truthy then
      let defn := getAutoIdColumn opts.dialect opts.autoId
      if defn = "" then [] else [defn]
    else []
  let tsCols := if opts.timestamps then getTimestampColumns opts.dialect else []
  let startExtras :=
    (opts.extraColumns.filter fun c => c.position == some .colStart).map
      fun c => buildColumnDefinition c opts.dialect
  autoIdCols ++ tsCols ++ startExtras

/-- `endCols` of `createTableDDL`: extras with `position: 'end'` or no
position. -/
def ddlEndCols (opts : TableOptions) : List String :=
  (opts.extraColumns.filter fun c =>
      match c.position with
      | none => true
      | some p => p == .colEnd).map
    fun c => buildColumnDefinition c opts.dialect

/-- `hasPrimaryKeyColumn` of `createTableDDL`: an extra column marked
primary key, a truthy non-array `primaryKey`, or a truthy raw `autoId`
option. -/
def hasPrimaryKeyColumn (opts : TableOptions) : Bool :=
  opts.extraColumns.any (fun c => c.primaryKey) ||
  (match opts.primaryKey with
   | .pkSingle s => !(s = "")
   | _ => false) ||
  opts.autoId.truthy

/-- The `constraints` list of `createTableDDL`: a table-level compound
primary key only when `primaryKey` is an array and `hasPrimaryKeyColumn` is
false. -/
def ddlConstraints (opts : TableOptions) : List String :=
  match opts.primaryKey with
  | .pkList l =>
      if hasPrimaryKeyColumn opts then []
      else ["PRIMARY KEY (" ++
        String.intercalate ", " (l.map fun k => quoteIdentifier k opts.dialect) ++ ")"]
  | _ => []

/-- `createTableDDL` of `zod-sql/index.ts`. -/
def createTableDDL (tableName : String) (shape : List (String × SchemaNode))
    (opts : TableOptions) : String :=
  let cols := ddlStartCols opts ++
    ddlMainCols shape opts.primaryKey opts.flattenDepth opts.dialect ++
    ddlEndCols opts
  let allDefinitions := cols ++ ddlConstraints opts
  let base := "CREATE TABLE IF NOT EXISTS " ++
    quoteIdentifier tableName opts.dialect ++ " (\n  " ++
    String.intercalate ",\n  " allDefinitions ++ "\n);"
  opts.indexes.foldl (fun sql kv =>
    sql ++ "\nCREATE INDEX IF NOT EXISTS " ++ quoteIdentifier kv.1 opts.dialect ++
      " ON " ++ quoteIdentifier tableName opts.dialect ++ " (" ++
      String.intercalate ", " (kv.2.map fun c => quoteIdentifier c opts.dialect) ++
      ");") base

/-! ## Structure extractor
(`packages/zod-sql/src/schema/structure-extractor.ts` and the helpers it
imports from `packages/shared/src`). -/

/-- `ColumnDefinition` of `zod-sql/src/types.ts`. -/
structure ColumnDefinition where
  name : String
  type : String
  notNull : Bool
  defaultValue : Option String
  primaryKey : Bool
  unique : Bool
deriving DecidableEq

/-- `TableStructure` of `zod-sql/src/types.ts` (the `indexes` record is
passed through unchanged). -/
structure TableStructure where
  columns : List ColumnDefinition
  primaryKeys : List String
  indexes : List (String × List String)
deriving DecidableEq

/-- `UnwrapResult` of `shared/src/schema/unwrapper.ts`. -/
structure UnwrapResult where
  type : SchemaNode
  isOptional : Bool
  isNullable : Bool

/-- The `// Handle ZodOptional` block of `unwrapOptionalTypes`. -/
def stripOptionalOnce : SchemaNode → SchemaNode × Bool
  | .zOptional inner => (inner, true)
  | t => (t, false)

/-- The `// Handle ZodNullable` block of `unwrapOptionalTypes`. -/
def stripNullableOnce : SchemaNode → SchemaNode × Bool
  | .zNullable inner => (inner, true)
  | t => (t, false)

/-- The `// Handle ZodDefault` block of `unwrapOptionalTypes`. -/
def stripDefaultOnce : SchemaNode → SchemaNode
  | .zDefault inner _ => inner
  | t => t

/-- `unwrapOptionalTypes` of `shared/src/schema/unwrapper.ts`: strips at
most one `ZodOptional`, then at most one `ZodNullable`, then at most one
`ZodDefault`, in that order. -/
def unwrapOptionalTypes (zodType : SchemaNode) : UnwrapResult :=
  let s1 := stripOptionalOnce zodType
  let s2 := stripNullableOnce s1.1
  ⟨stripDefaultOnce s2.1, s1.2, s2.2⟩

/-- `shouldFlattenType` of `shared/src/flattening/type-processor.ts`. -/
def shouldFlattenType (zodType : SchemaNode) (maxDepth : Nat) : Bool :=
  if maxDepth = 0 then false
  else match (unwrapOptionalTypes zodType).type with
    | .zObject _ => true
    | _ => false

/-- `mapTypeToSql` of `shared/src/utils/sql-mapping.ts` (simplified type
string to SQL type; `boolean` maps to `INTEGER`, `string`/`array`/`object`
and anything else to `TEXT`). -/
def mapTypeToSql (type : String) (dialect : SQLDialect) : String :=
  if type = "integer" then "INTEGER"
  else if type = "number" then
    match dialect with
    | .postgres => "DOUBLE PRECISION"
    | .mysql => "DOUBLE"
    | _ => "REAL"
  else if type = "boolean" then "INTEGER"
  else "TEXT"

/-- `processZodTypeToColumn` of `structure-extractor.ts`: unwraps via
`unwrapOptionalTypes`, records a default value only when the unwrap result
is still a `ZodDefault`, maps the type (`ZodBoolean → INTEGER`,
`ZodDate → DATETIME`, arrays/objects → `TEXT`), and sets
`notNull = !isOptional` (the `isNullable` flag of the unwrap result is not
consulted). -/
def processZodTypeToColumn (name : String) (zodType : SchemaNode)
    (dialect : SQLDialect) : ColumnDefinition :=
  let r := unwrapOptionalTypes zodType
  let defaultValue : Option String := match r.type with
    | .zDefault _ v => some v
    | _ => none
  let sqlType : String := match r.type with
    | .zNumber isInt => mapTypeToSql (if isInt then "integer" else "number") dialect
    | .zString _ => "TEXT"
    | .zBoolean => "INTEGER"
    | .zDate => "DATETIME"
    | .zArray _ => "TEXT"
    | .zObject _ => "TEXT"
    | _ => "TEXT"
  { name := name, type := sqlType, notNull := !r.isOptional,
    defaultValue := defaultValue, primaryKey := false, unique := false }

/-- `processNestedObjectForStructure` of `structure-extractor.ts`: at depth
0 the column is produced from the original (still wrapped) field type;
otherwise each field either recurses (when `shouldFlattenType`) or is
emitted via `processZodTypeToColumn`. -/
def processNestedObjectForStructure (pfx : String) (objectType : SchemaNode)
    (depth : Nat) (dialect : SQLDialect) (originalType : SchemaNode) :
    List ColumnDefinition :=
  match depth with
  | 0 => [processZodTypeToColumn pfx originalType dialect]
  | dep + 1 =>
      (shapeOf objectType).flatMap fun kv =>
        let colName := pfx ++ "_" ++ kv.1
        if shouldFlattenType kv.2 (dep + 1) then
          processNestedObjectForStructure colName (unwrapOptionalTypes kv.2).type
            dep dialect kv.2
        else
          [processZodTypeToColumn colName kv.2 dialect]

/-- `processZodTypeWithFlattening` of `structure-extractor.ts`. -/
def processZodTypeWithFlattening (name : String) (zodType : SchemaNode)
    (flattenDepth : Nat) (dialect : SQLDialect) : List ColumnDefinition :=
  if shouldFlattenType zodType flattenDepth then
    processNestedObjectForStructure name (unwrapOptionalTypes zodType).type
      flattenDepth dialect zodType
  else
    [processZodTypeToColumn name zodType dialect]

/-- `generateAutoIdConfig` of `shared/src/fields/auto-id.ts`: `null` for a
falsy option, the boolean shorthand expands to
`{enabled: true, name: 'id', type: 'integer'}`, and a config object keeps
its `enabled` while defaulting `name`/`type` via `||`. -/
def generateAutoIdConfig : AutoIdOption → Option AutoIdConfig
  | .abool b =>
      if b then some ⟨true, some "id", some .integer⟩ else none
  | .aconfig c =>
      some ⟨c.enabled, some (jsNameOrId c.name), some (c.ty.getD .integer)⟩

/-- `filterExtraColumnsByPosition` of `shared/src/fields/extra-columns.ts`:
`start` matches only `position: 'start'`; `end` matches a missing position
or `position: 'end'`. -/
def filterExtraColumnsByPosition (extraColumns : List ExtraColumn)
    (position : ColumnPosition) : List ExtraColumn :=
  extraColumns.filter fun col =>
    match position with
    | .colStart => col.position == some .colStart
    | .colEnd =>
        match col.position with
        | none => true
        | some p => p == .colEnd

/-- An `ExtraColumn` rendered as the extractor's `ColumnDefinition`
(`notNull: col.notNull !== false`). -/
def extraToColumnDefinition (col : ExtraColumn) : ColumnDefinition :=
  { name := col.name, type := col.type,
    notNull := !(col.notNull == some false),
    defaultValue := col.defaultValue,
    primaryKey := col.primaryKey, unique := col.unique }

/-- `columns.find(col => col.name === pk)` followed by
`column.primaryKey = true`: sets the flag on the first column with the
given name. -/
def setPrimaryKeyOnFirst : List ColumnDefinition → String → List ColumnDefinition
  | [], _ => []
  | c :: rest, pk =>
      if c.name == pk then { c with primaryKey := true } :: rest
      else c :: setPrimaryKeyOnFirst rest pk

/-- The `primaryKey` option normalised as in the extractor's
`if (primaryKey) { const pkColumns = Array.isArray(primaryKey) ? primaryKey
: [primaryKey] ... }` (a falsy option — absent or `""` — contributes
nothing). -/
def pkColumnsOf : PrimaryKeyOption → List String
  | .pkNone => []
  | .pkSingle s => if s = "" then [] else [s]
  | .pkList l => l

/-- One iteration of the extractor's `pkColumns.forEach` block: record the
name (deduplicated) and set the `primaryKey` flag on the first matching
column. -/
def applyPrimaryKeyStep (acc : List ColumnDefinition × List String)
    (pk : String) : List ColumnDefinition × List String :=
  (setPrimaryKeyOnFirst acc.1 pk,
   if acc.2.contains pk then acc.2 else acc.2 ++ [pk])

/-- `extractTableStructure` of `structure-extractor.ts`. -/
def extractTableStructure (shape : List (String × SchemaNode))
    (opts : TableOptions) : TableStructure :=
  let autoIdPart : List ColumnDefinition × List String :=
    match generateAutoIdConfig opts.autoId with
    | some cfg =>
        let idName := jsNameOrId cfg.name
        let idType := if cfg.ty == some .uuid then "TEXT" else "INTEGER"
        ([{ name := idName, type := idType, notNull := true,
            defaultValue := none, primaryKey := true, unique := true }], [idName])
    | none => ([], [])
  let tsCols : List ColumnDefinition :=
    if opts.timestamps then
      [{ name := "created_at", type := "DATETIME", notNull := true,
         defaultValue := some "CURRENT_TIMESTAMP", primaryKey := false,
         unique := false },
       { name := "updated_at", type := "DATETIME", notNull := true,
         defaultValue := some "CURRENT_TIMESTAMP", primaryKey := false,
         unique := false }]
    else []
  let startColumns := filterExtraColumnsByPosition opts.extraColumns .colStart
  let endColumns := filterExtraColumnsByPosition opts.extraColumns .colEnd
  let schemaCols : List ColumnDefinition :=
    shape.flatMap fun kv =>
      processZodTypeWithFlattening kv.1 kv.2 opts.flattenDepth opts.dialect
  let columns0 :=
    autoIdPart.1 ++ tsCols ++ startColumns.map extraToColumnDefinition ++
    schemaCols ++ endColumns.map extraToColumnDefinition
  let primaryKeys0 :=
    autoIdPart.2 ++ (startColumns.filter (·.primaryKey)).map (·.name) ++
    (endColumns.filter (·.primaryKey)).map (·.name)
  let result := (pkColumnsOf opts.primaryKey).foldl applyPrimaryKeyStep
    (columns0, primaryKeys0)
  ⟨result.1, result.2, opts.indexes⟩

/-! ## Migration engine
(the migration module of `packages/zod-sql`, re-exported through
`packages/zod-sql/src/maps/sqlite/index.ts`: `getTableColumns`,
`getColumnDefinition`, `backupTableData`, `restoreTableData`,
`migrateTableSchema`).  Database I/O is modelled by an input
`introspection : Option (List String)` — `none` when the introspection
query throws, `some live` when it returns the listed column names — and an
input `liveRows` holding what the backup `SELECT` would return; the result
is the ordered list of SQL statements handed to `client.execute` together
with the outcome. -/

/-- The introspection statement of `getTableColumns` (the `default` arm of
the dialect switch repeats the sqlite `PRAGMA`). -/
def introspectionSQL (tableName : String) (dialect : SQLDialect) : String :=
  match dialect with
  | .mysql => "SHOW COLUMNS FROM " ++ tableName
  | .postgres =>
      "SELECT column_name FROM information_schema.columns WHERE table_name = \x27" ++
        tableName ++ "\x27"
  | _ => "PRAGMA table_info(" ++ tableName ++ ")"

/-- `getTableColumns`: the extracted column names, with the `catch` branch
(`// Table doesn't exist`) returning `[]`. -/
def getTableColumns (introspection : Option (List String)) : List String :=
  introspection.getD []

/-- JS `String.prototype.toUpperCase()`, character-wise (the SQL type names
it is applied to are ASCII, where this matches Lean's `Char.toUpper`). -/
def jsToUpperCase (s : String) : String :=
  ⟨s.data.map Char.toUpper⟩

/-- The sqlite arm of the migration `getColumnDefinition`'s generic-type
switch (`switch (sqlType.toUpperCase())`; an unmatched type is kept
verbatim). -/
def migSqliteTypeMap (t : String) : String :=
  let u := jsToUpperCase t
  if u = "STRING" || u = "VARCHAR" then "TEXT"
  else if u = "INTEGER" || u = "INT" then "INTEGER"
  else if u = "FLOAT" || u = "DOUBLE" then "REAL"
  else if u = "BOOLEAN" then "INTEGER"
  else if u = "DATETIME" || u = "TIMESTAMP" then "TEXT"
  else t

/-- The migration module's `getColumnDefinition`: `column.type || 'TEXT'`,
sqlite type mapping, and a `DEFAULT` clause only for a truthy
`defaultValue`.  No `NOT NULL` is ever appended (the comment in the source:
"Always make new columns nullable to avoid constraint errors"). -/
def getColumnDefinition (column : ColumnDefinition) (dialect : SQLDialect) : String :=
  let sqlType := if column.type = "" then "TEXT" else column.type
  let sqlType := match dialect with
    | .sqlite => migSqliteTypeMap sqlType
    | _ => sqlType
  let defaultClause := match column.defaultValue with
    | some v => if v = "" then "" else " DEFAULT " ++ v
    | none => ""
  sqlType ++ defaultClause

/-- The `ALTER TABLE` statement issued for one added column
(`migrateTableSchema`, additions loop). -/
def alterAddColumnSQL (tableName : String) (columnName : String)
    (columnDef : ColumnDefinition) (dialect : SQLDialect) : String :=
  "ALTER TABLE " ++ tableName ++ " ADD COLUMN \x22" ++ columnName ++ "\x22 " ++
    getColumnDefinition columnDef dialect

/-- The backup `SELECT` of `backupTableData`. -/
def backupTableSQL (tableName : String) (columns : List String) : String :=
  "SELECT " ++
    String.intercalate ", " (columns.map fun c => "\x22" ++ c ++ "\x22") ++
    " FROM " ++ tableName

/-- A value in a backed-up row: a JS string (escaped and single-quoted on
restore) or any other defined value rendered via `String(val)`. -/
inductive SQLValue where
  | vstr (s : String)
  | vraw (s : String)
deriving DecidableEq

/-- A backed-up row: column name to value; `none` models a column whose
value is `null` (the `undefined` case is an absent entry, which behaves
identically under the `!== undefined && !== null` filter). -/
abbrev BackupRow := List (String × Option SQLValue)

/-- Value escaping in `restoreTableData`. -/
def escapeSQLValue : SQLValue → String
  | .vstr s => "\x27" ++ s.replace "\x27" "\x27\x27" ++ "\x27"
  | .vraw s => s

/-- The `INSERT` built for one restored row: only columns of the new schema
whose backed-up value is defined and non-null are written; a row with no
such column becomes `INSERT ... DEFAULT VALUES`. -/
def restoreRowSQL (tableName : String) (newColumns : List String)
    (row : BackupRow) : String :=
  let filtered : List (String × SQLValue) := newColumns.filterMap fun col =>
    match row.lookup col with
    | some (some v) => some (col, v)
    | _ => none
  if filtered = [] then "INSERT INTO " ++ tableName ++ " DEFAULT VALUES"
  else
    "INSERT INTO " ++ tableName ++ " (" ++
      String.intercalate ", " (filtered.map fun p => "\x22" ++ p.1 ++ "\x22") ++
      ") VALUES (" ++
      String.intercalate ", " (filtered.map fun p => escapeSQLValue p.2) ++ ")"

/-- Modelled from the spec: the migration engine's recreate step executes
"fresh DDL for the new structure" via a `createTableDDL` imported from
`tables/table-ddl.ts`, a file that is not under `src/` (only this caller
is).  Its exact output string is irrelevant to every claim below; it is
modelled as a `CREATE TABLE IF NOT EXISTS` statement listing the derived
columns, faithful to the spec's §4.4 step (3). -/
def recreateTableDDL (tableName : String) (shape : List (String × SchemaNode))
    (opts : TableOptions) : String :=
  "CREATE TABLE IF NOT EXISTS " ++ tableName ++ " (" ++
    String.intercalate ", "
      ((extractTableStructure shape opts).columns.map fun c =>
        c.name ++ " " ++ c.type) ++ ")"

/-- Outcome of a `migrateTableSchema` call: normal return or a thrown
`Error` with its message. -/
inductive MigrationResult where
  | ok
  | error (msg : String)
deriving DecidableEq

/-- The exact message of the error thrown when columns must be removed and
`allowDrop` is not set. -/
def migrationBlockedMessage (tableName : String)
    (columnsToRemove : List String) : String :=
  "Cannot remove columns [" ++ String.intercalate ", " columnsToRemove ++
    "] from table " ++ tableName ++
    ". Set allowDrop: true to enable table recreation with data preservation."

/-- `migrateTableSchema` of the migration module, as the ordered statement
trace plus outcome.  The source order is kept: introspection; early return
when no live columns; the diff; the `ALTER TABLE ADD COLUMN` loop; only
then the removal check (throwing without `allowDrop`), else
backup → drop → recreate → restore.  The model assumes `client.execute`
succeeds on every issued statement. -/
def migrateTableSchema (tableName : String) (shape : List (String × SchemaNode))
    (opts : TableOptions) (allowDrop : Bool)
    (introspection : Option (List String)) (liveRows : List BackupRow) :
    List String × MigrationResult :=
  let dialect := opts.dialect
  let introSQL := introspectionSQL tableName dialect
  let currentColumns := getTableColumns introspection
  if currentColumns = [] then ([introSQL], .ok)
  else
    let struct := extractTableStructure shape opts
    let newColumns := struct.columns.map (·.name)
    let columnsToAdd := newColumns.filter fun c => !currentColumns.contains c
    let columnsToRemove := currentColumns.filter fun c => !newColumns.contains c
    let addStmts := columnsToAdd.filterMap fun columnName =>
      (struct.columns.find? fun col => col.name == columnName).map
        fun columnDef => alterAddColumnSQL tableName columnName columnDef dialect
    if columnsToRemove = [] then ([introSQL] ++ addStmts, .ok)
    else if !allowDrop then
      ([introSQL] ++ addStmts,
       .error (migrationBlockedMessage tableName columnsToRemove))
    else
      let backupSQL := backupTableSQL tableName currentColumns
      let dropSQL := "DROP TABLE " ++ tableName
      let ddl := recreateTableDDL tableName shape opts
      let restoreStmts := liveRows.map (restoreRowSQL tableName newColumns)
      ([introSQL] ++ addStmts ++ [backupSQL, dropSQL, ddl] ++ restoreStmts, .ok)

/-! ## Auxiliary definitions used by the theorem statements. -/

/-- Whether the node's outermost layer is an `Optional`/`Nullable`/`Default`
wrapper. -/
def isWrappedNode : SchemaNode → Bool
  | .zOptional _ => true
  | .zNullable _ => true
  | .zDefault _ _ => true
  | _ => false

/-- The SQL type the DDL main loop assigns to a field whose single-unwrap
result is `u`: the inlined number switch for `ZodNumber`, otherwise
`mapZodToSql`. -/
def ddlSimpleType (u : SchemaNode) (dialect : SQLDialect) : String :=
  match u with
  | .zNumber isInt => numberSqlTypeSwitch isInt dialect
  | _ => mapZodToSql u dialect

/-- Every SQL type string `processZodTypeToColumn` can produce (over all
dialects). -/
def schemaFieldSqlTypes : List String :=
  ["TEXT", "INTEGER", "REAL", "DOUBLE PRECISION", "DOUBLE", "DATETIME"]

/-- The number of `Default` layers in the outer wrapper chain of a node. -/
def wrapperDefaults : SchemaNode → Nat
  | .zOptional inner => wrapperDefaults inner
  | .zNullable inner => wrapperDefaults inner
  | .zDefault inner _ => 1 + wrapperDefaults inner
  | _ => 0

/-- A chain of `n` nested single-field objects: `nestObj 0` is a plain
string, `nestObj (n+1)` is `{f: nestObj n}`. -/
def nestObj : Nat → SchemaNode
  | 0 => .zString false
  | n + 1 => .zObject [("f", nestObj n)]

/-- `p` with `k` copies of the flattening suffix `_f` appended. -/
def chainCol (p : String) : Nat → String
  | 0 => p
  | k + 1 => chainCol (p ++ "_f") k

/-- The spec's §8 scenario schema
`{id: string, profile: {firstName: string, address: {city: string,
country: {code: string}}}}`. -/
def scenarioShape : List (String × SchemaNode) :=
  [("id", .zString false),
   ("profile", .zObject
     [("firstName", .zString false),
      ("address", .zObject
        [("city", .zString false),
         ("country", .zObject [("code", .zString false)])])])]

/-- The spec's §8 type-mapping schema fields
`{n: integer, f: number, s: string, b: boolean, arr: array<string>}`. -/
def c5Fields : List SchemaNode :=
  [.zNumber true, .zNumber false, .zString false, .zBoolean,
   .zArray (.zString false)]

/-- The flattened column names the structure extractor produces for one
object already under flattening (name-level mirror of
`processNestedObjectForStructure`). -/
def pathNames (pfx : String) (objectType : SchemaNode) : Nat → List String
  | 0 => [pfx]
  | dep + 1 =>
      (shapeOf objectType).flatMap fun kv =>
        if shouldFlattenType kv.2 (dep + 1) then
          pathNames (pfx ++ "_" ++ kv.1) (unwrapOptionalTypes kv.2).type dep
        else [pfx ++ "_" ++ kv.1]

/-- The flattened column names the structure extractor produces for one
top-level schema field (name-level mirror of
`processZodTypeWithFlattening`). -/
def fieldPathNames (name : String) (t : SchemaNode) (flattenDepth : Nat) :
    List String :=
  if shouldFlattenType t flattenDepth then
    pathNames name (unwrapOptionalTypes t).type flattenDepth
  else [name]

/-- `TableOptions` with everything off (sqlite dialect, no primary key, no
indexes, default flatten depth 2, no extras, no timestamps, no auto-ID):
the resolved defaults of the source's destructured options. -/
def defaultOptions : TableOptions :=
  ⟨.sqlite, .pkNone, [], 2, [], false, .abool false⟩

/-! ## Shared helper lemmas. -/

/-- Appending `"_" ++ "f"` is appending `"_f"`. -/
theorem append_underscore_f (p : String) : p ++ "_" ++ "f" = p ++ "_f" := by
  rw [String.append_assoc]
  rfl

/-- Reassociation of the `identifier ++ " " ++ type ++ nullable` column
format. -/
theorem append_col_parts (q s t : String) :
    q ++ " " ++ s ++ t = q ++ (" " ++ s ++ t) := by
  rw [String.append_assoc, String.append_assoc, String.append_assoc]

/-! ## Claim theorems. -/

/-- C4: for the scenario schema `{id, profile: {firstName, address: {city,
country: {code}}}}` with `flattenDepth = 2`, the DDL generator emits exactly
the columns `id, profile_firstName, profile_address_city,
profile_address_country` in that order, the last with the dialect's
JSON-capable type (`TEXT`/`JSONB`/`JSON`) and `country`'s inner field not
expanded; and in general (final conjunct, on a chain of `n+1` nested
objects) one depth unit is consumed per object-nesting level entered: with
depth `d+1`, the chain is fully expanded when it is at most `d+1` levels
deep, and otherwise collapses to a JSON column after exactly `d+1`
levels. -/
theorem flattenDepth_scenario_and_chain :
    (ddlMainCols scenarioShape .pkNone 2 .sqlite =
      ["\x22id\x22 TEXT NOT NULL",
       "\x22profile_firstName\x22 TEXT NOT NULL",
       "\x22profile_address_city\x22 TEXT NOT NULL",
       "\x22profile_address_country\x22 TEXT NOT NULL"]) ∧
    (ddlMainCols scenarioShape .pkNone 2 .postgres =
      ["\x22id\x22 TEXT NOT NULL",
       "\x22profile_firstName\x22 TEXT NOT NULL",
       "\x22profile_address_city\x22 TEXT NOT NULL",
       "\x22profile_address_country\x22 JSONB NOT NULL"]) ∧
    (ddlMainCols scenarioShape .pkNone 2 .mysql =
      ["\x60id\x60 TEXT NOT NULL",
       "\x60profile_firstName\x60 TEXT NOT NULL",
       "\x60profile_address_city\x60 TEXT NOT NULL",
       "\x60profile_address_country\x60 JSON NOT NULL"]) ∧
    (∀ (p : String) (n d : Nat),
      processNestedObject p (nestObj (n + 1)) (d + 1) .postgres =
        if n ≤ d then
          [quoteIdentifier (chainCol p (n + 1)) .postgres ++ " TEXT NOT NULL"]
        else
          [quoteIdentifier (chainCol p (d + 1)) .postgres ++ " JSONB NOT NULL"]) := by
  refine ⟨by decide, by decide, by decide, ?_⟩
  intro p n d
  induction n generalizing p d with
  | zero =>
      simp [processNestedObject, nestObj, shapeOf, unwrapOnce, mapZodToSql,
        mapZodToPostgres, zodIsNullable, acceptsUndefined, acceptsNull,
        chainCol, append_underscore_f]
      rw [append_col_parts]
      rfl
  | succ m ih =>
      have hstep : processNestedObject p (nestObj (m + 2)) (d + 1) .postgres =
          processNestedObject (p ++ "_f") (nestObj (m + 1)) d .postgres := by
        simp [processNestedObject, nestObj, shapeOf, unwrapOnce,
          append_underscore_f]
      rw [hstep]
      match d with
      | 0 =>
          simp [processNestedObject, nestObj, mapZodToSql, mapZodToPostgres,
            zodIsNullable, acceptsUndefined, acceptsNull, chainCol]
          rw [append_col_parts]
          rfl
      | e + 1 =>
          rw [ih]
          simp only [Nat.succ_le_succ_iff, chainCol]

/-- C5 (counterexample): the claim asserts the dialect type-mapping table
holds on the structure-extractor path as well, with `b : boolean` mapping to
`BOOLEAN` under sqlite; but `processZodTypeToColumn` maps a boolean field to
`INTEGER` (and, shown alongside, an array field to `TEXT` under postgres
where the claim demands `JSONB`, and an integer field to `INTEGER` under
mysql where the claim demands `INT`). -/
theorem extractor_type_mapping_counterexample :
    (processZodTypeToColumn "b" .zBoolean .sqlite).type = "INTEGER" ∧
    ¬ (processZodTypeToColumn "b" .zBoolean .sqlite).type = "BOOLEAN" ∧
    (processZodTypeToColumn "arr" (.zArray (.zString false)) .postgres).type =
      "TEXT" ∧
    (processZodTypeToColumn "n" (.zNumber true) .mysql).type = "INTEGER" := by
  decide

/-- C5 (amended): the claimed type table holds exactly on the DDL path
(`mapZodToSql`): sqlite `INTEGER, REAL, TEXT, BOOLEAN, TEXT`; postgres
`INTEGER, DOUBLE PRECISION, TEXT, BOOLEAN, JSONB`; mysql
`INT, DOUBLE, TEXT, BOOLEAN, JSON`.  On the structure-extractor path
(`processZodTypeToColumn`), integers map to `INTEGER` in every dialect,
booleans to `INTEGER`, and arrays to `TEXT`; only the unconstrained-number
column is dialect-specific. -/
theorem dialect_type_mapping_both_paths :
    (c5Fields.map (mapZodToSql · .sqlite) =
      ["INTEGER", "REAL", "TEXT", "BOOLEAN", "TEXT"]) ∧
    (c5Fields.map (mapZodToSql · .postgres) =
      ["INTEGER", "DOUBLE PRECISION", "TEXT", "BOOLEAN", "JSONB"]) ∧
    (c5Fields.map (mapZodToSql · .mysql) =
      ["INT", "DOUBLE", "TEXT", "BOOLEAN", "JSON"]) ∧
    (c5Fields.map (fun t => (processZodTypeToColumn "c" t .sqlite).type) =
      ["INTEGER", "REAL", "TEXT", "INTEGER", "TEXT"]) ∧
    (c5Fields.map (fun t => (processZodTypeToColumn "c" t .postgres).type) =
      ["INTEGER", "DOUBLE PRECISION", "TEXT", "INTEGER", "TEXT"]) ∧
    (c5Fields.map (fun t => (processZodTypeToColumn "c" t .mysql).type) =
      ["INTEGER", "DOUBLE", "TEXT", "INTEGER", "TEXT"]) := by
  decide

/-- C6 (counterexample): the claim asserts that a dialect outside
`{sqlite, postgres, mysql}` surfaces an `UnsupportedDialect` error
immediately with no fallback; but DDL generation under the runtime dialect
value `"oracle"` succeeds and produces byte-identical output to the sqlite
dialect — the `default` switch arms fall back to sqlite type mapping and
double-quote quoting, and no error path exists. -/
theorem unknown_dialect_counterexample :
    createTableDDL "t" [("s", .zString false)]
        ⟨.other "oracle", .pkNone, [], 2, [], false, .abool false⟩ =
      createTableDDL "t" [("s", .zString false)] defaultOptions ∧
    createTableDDL "t" [("s", .zString false)]
        ⟨.other "oracle", .pkNone, [], 2, [], false, .abool false⟩ =
      "CREATE TABLE IF NOT EXISTS \x22t\x22 (\n  \x22s\x22 TEXT NOT NULL\n);" := by
  constructor
  · rfl
  · rfl

/-- C6 (amended): an options struct whose dialect lies outside
`{sqlite, postgres, mysql}` is not rejected; every dialect dispatch falls
through its `default` arm to the sqlite behaviour — type mapping, number
switch, simplified-type mapping, identifier quoting (double quote) and
migration introspection — so derivation and DDL generation silently behave
as sqlite. -/
theorem unknown_dialect_fallback (s : String) (t : SchemaNode)
    (tab : String) (ty : String) (isInt : Bool) :
    mapZodToSql t (.other s) = mapZodToSQLite t ∧
    numberSqlTypeSwitch isInt (.other s) = numberSqlTypeSwitch isInt .sqlite ∧
    mapTypeToSql ty (.other s) = mapTypeToSql ty .sqlite ∧
    getQuoteChar (.other s) = "\x22" ∧
    introspectionSQL tab (.other s) = introspectionSQL tab .sqlite := by
  refine ⟨rfl, rfl, ?_, rfl, rfl⟩
  unfold mapTypeToSql
  split
  · rfl
  · split
    · rfl
    · rfl

/-- `isOptional() || isNullable()` is true exactly for nodes carrying at
least one `Optional`/`Nullable`/`Default` wrapper layer. -/
theorem zodIsNullable_eq_isWrapped (t : SchemaNode) :
    zodIsNullable t = isWrappedNode t := by
  cases t <;>
    simp [zodIsNullable, acceptsUndefined, acceptsNull, isWrappedNode]

/-- The DDL main loop's column for a field that does not flatten (its
single-unwrap result is not an object). -/
theorem ddlFieldCols_not_object (pk : PrimaryKeyOption) (n : Nat)
    (d : SQLDialect) (key : String) (t : SchemaNode)
    (h : ∀ fs, unwrapOnce t ≠ SchemaNode.zObject fs) :
    ddlFieldCols pk n d key t =
      [quoteIdentifier key d ++ " " ++ ddlSimpleType (unwrapOnce t) d ++
       (if zodIsNullable t then "" else " NOT NULL") ++
       (if pkMatches pk key then " PRIMARY KEY" else "")] := by
  cases hu : unwrapOnce t with
  | zObject fields => exact absurd hu (h fields)
  | zNumber isInt => simp [ddlFieldCols, hu, ddlSimpleType]
  | zString b => simp [ddlFieldCols, hu, ddlSimpleType]
  | zBoolean => simp [ddlFieldCols, hu, ddlSimpleType]
  | zDate => simp [ddlFieldCols, hu, ddlSimpleType]
  | zEnum => simp [ddlFieldCols, hu, ddlSimpleType]
  | zArray e => simp [ddlFieldCols, hu, ddlSimpleType]
  | zOptional i => simp [ddlFieldCols, hu, ddlSimpleType]
  | zNullable i => simp [ddlFieldCols, hu, ddlSimpleType]
  | zDefault i v => simp [ddlFieldCols, hu, ddlSimpleType]
  | zUnknown => simp [ddlFieldCols, hu, ddlSimpleType]

/-- C7 (counterexample): the claim says every Optional/Nullable-wrapped
field yields a column without `NOT NULL` at every flattening level
including nested depth-0 JSON collapse, and every field not so wrapped
yields `NOT NULL`.  Both halves fail: (1) the nested field `b`, wrapped in
`Optional`, collapses at depth 0 to a JSON column that carries `NOT NULL`
(nullability is recomputed on the unwrapped object); (2) a `Default`-only
field (not Optional/Nullable-wrapped) yields a column without
`NOT NULL`. -/
theorem nullability_counterexample :
    (ddlMainCols
        [("a", .zObject [("b", .zOptional (.zObject [("c", .zString false)]))])]
        .pkNone 1 .sqlite = ["\x22a_b\x22 TEXT NOT NULL"] ∧
     zodIsNullable (.zOptional (.zObject [("c", .zString false)])) = true) ∧
    (ddlFieldCols .pkNone 2 .sqlite "d" (.zDefault (.zString false) "x") =
        ["\x22d\x22 TEXT"] ∧
     isWrappedNode (.zDefault (.zString false) "x") = true ∧
     acceptsUndefined (.zDefault (.zString false) "x") = true) := by
  decide

/-- C7 (amended): in the DDL generator, a field's column omits `NOT NULL`
exactly when the field carries at least one `Optional`/`Nullable`/`Default`
wrapper layer (zod's `isOptional() || isNullable()` is true for `Default`
wrappers too, so `Default`-only fields are also nullable at the SQL level),
for every non-flattened field at every level and in every dialect — except
a nested object field that collapses to a JSON column during recursion,
which always carries `NOT NULL` regardless of its wrappers because
nullability is recomputed on the already unwrapped object. -/
theorem nullability_wrapper_rule (t : SchemaNode) (d : SQLDialect)
    (key : String) (pk : PrimaryKeyOption) (n : Nat) :
    zodIsNullable t = isWrappedNode t ∧
    ((∀ fs, unwrapOnce t ≠ SchemaNode.zObject fs) →
      ddlFieldCols pk n d key t =
        [quoteIdentifier key d ++ " " ++ ddlSimpleType (unwrapOnce t) d ++
         (if isWrappedNode t then "" else " NOT NULL") ++
         (if pkMatches pk key then " PRIMARY KEY" else "")]) ∧
    (∀ (fields : List (String × SchemaNode)) (pfx : String),
      processNestedObject pfx (.zObject fields) 0 d =
        [quoteIdentifier pfx d ++ " " ++ mapZodToSql (.zObject fields) d ++
         " NOT NULL"]) := by
  refine ⟨zodIsNullable_eq_isWrapped t, ?_, ?_⟩
  · intro h
    rw [ddlFieldCols_not_object pk n d key t h, zodIsNullable_eq_isWrapped]
  · intro fields pfx
    simp [processNestedObject, zodIsNullable, acceptsUndefined, acceptsNull]

/-- Closed witness for the amended C7 rule: an `Optional`-wrapped string
field produces a column without `NOT NULL`, a bare string field one with
`NOT NULL`. -/
theorem nullability_wrapper_rule_witness :
    ddlFieldCols .pkNone 2 .sqlite "a" (.zOptional (.zString false)) =
      ["\x22a\x22 TEXT"] ∧
    ddlFieldCols .pkNone 2 .sqlite "a" (.zString false) =
      ["\x22a\x22 TEXT NOT NULL"] := by
  constructor
  · rw [(nullability_wrapper_rule (.zOptional (.zString false)) .sqlite "a"
      .pkNone 2).2.1 (by intro fs h; cases h)]
    decide
  · rw [(nullability_wrapper_rule (.zString false) .sqlite "a"
      .pkNone 2).2.1 (by intro fs h; cases h)]
    decide

/-- C8 (counterexample): the claim says the compound constraint is emitted
whenever `options.primaryKey` is a list and no single-column primary key
exists (auto-ID disabled, no extra primary-key column, no single-string
key).  With `autoId = {enabled: false}` the auto-ID column is disabled (no
`id` column is rendered), `primaryKey = ["a"]` is a list and no column is a
primary key, yet no `PRIMARY KEY (...)` constraint appears: the guard tests
the raw option's truthiness, and a config object is truthy even when
disabled. -/
theorem compound_pk_counterexample :
    createTableDDL "t" [("a", .zString false)]
        ⟨.sqlite, .pkList ["a"], [], 2, [], false, .aconfig ⟨false, none, none⟩⟩ =
      "CREATE TABLE IF NOT EXISTS \x22t\x22 (\n  \x22a\x22 TEXT NOT NULL\n);" ∧
    ddlConstraints
        ⟨.sqlite, .pkList ["a"], [], 2, [], false, .aconfig ⟨false, none, none⟩⟩ =
      [] ∧
    getAutoIdColumn .sqlite (.aconfig ⟨false, none, none⟩) = "" := by
  decide

/-- C8 (amended): the compound `PRIMARY KEY (...)` constraint is emitted iff
`options.primaryKey` is a list, no extra column is marked primary key, and
the raw `autoId` option is falsy — a disabled `AutoIdConfig` object still
suppresses the constraint because the guard checks the option's truthiness,
not its `enabled` flag.  A single-string `primaryKey` yields no table-level
constraint, and a non-flattened schema field whose name equals that string
is rendered inline with a trailing `PRIMARY KEY`; so inline and table-level
renderings never coexist. -/
theorem primary_key_resolution (opts : TableOptions) (key : String)
    (t : SchemaNode) (n : Nat) :
    (∀ l, opts.primaryKey = .pkList l →
      ddlConstraints opts =
        if opts.extraColumns.any (fun c => c.primaryKey) || opts.autoId.truthy
        then []
        else ["PRIMARY KEY (" ++
          String.intercalate ", "
            (l.map fun k => quoteIdentifier k opts.dialect) ++ ")"]) ∧
    (∀ s, opts.primaryKey = .pkSingle s → ddlConstraints opts = []) ∧
    (opts.primaryKey = .pkNone → ddlConstraints opts = []) ∧
    ((∀ fs, unwrapOnce t ≠ SchemaNode.zObject fs) →
      ddlFieldCols (.pkSingle key) n opts.dialect key t =
        [quoteIdentifier key opts.dialect ++ " " ++
         ddlSimpleType (unwrapOnce t) opts.dialect ++
         (if zodIsNullable t then "" else " NOT NULL") ++ " PRIMARY KEY"]) := by
  refine ⟨?_, ?_, ?_, ?_⟩
  · intro l hl
    simp [ddlConstraints, hasPrimaryKeyColumn, hl]
  · intro s hs
    simp [ddlConstraints, hs]
  · intro h0
    simp [ddlConstraints, h0]
  · intro h
    rw [ddlFieldCols_not_object (.pkSingle key) n opts.dialect key t h]
    simp [pkMatches]

/-- Closed witness for the amended C8 rule: compound constraint present for
a list key with falsy `autoId`, inline `PRIMARY KEY` for a single-string
key. -/
theorem primary_key_resolution_witness :
    ddlConstraints ⟨.sqlite, .pkList ["a", "b"], [], 2, [], false, .abool false⟩ =
      ["PRIMARY KEY (\x22a\x22, \x22b\x22)"] ∧
    ddlFieldCols (.pkSingle "a") 2 .sqlite "a" (.zNumber true) =
      ["\x22a\x22 INTEGER NOT NULL PRIMARY KEY"] := by
  constructor
  · rw [(primary_key_resolution
      ⟨.sqlite, .pkList ["a", "b"], [], 2, [], false, .abool false⟩
      "a" (.zNumber true) 2).1 ["a", "b"] rfl]
    decide
  · rw [(primary_key_resolution
      ⟨.sqlite, .pkSingle "a", [], 2, [], false, .abool false⟩
      "a" (.zNumber true) 2).2.2.2 (by intro fs h; cases h)]
    decide

/-- The columns the extractor emits under flattening carry exactly the
underscore-joined path names. -/
theorem map_name_processNestedStructure (depth : Nat) :
    ∀ (pfx : String) (obj : SchemaNode) (d : SQLDialect) (orig : SchemaNode),
      (processNestedObjectForStructure pfx obj depth d orig).map
          (fun c => c.name) = pathNames pfx obj depth := by
  induction depth with
  | zero =>
      intro pfx obj d orig
      simp [processNestedObjectForStructure, pathNames, processZodTypeToColumn]
  | succ dep ih =>
      intro pfx obj d orig
      simp only [processNestedObjectForStructure, pathNames, List.map_flatMap]
      apply List.flatMap_congr
      intro kv _
      by_cases h : shouldFlattenType kv.2 (dep + 1)
      · simp [h, ih]
      · simp [h, processZodTypeToColumn]

/-- Name-level view of `processZodTypeWithFlattening`. -/
theorem map_name_withFlattening (name : String) (t : SchemaNode)
    (flattenDepth : Nat) (d : SQLDialect) :
    (processZodTypeWithFlattening name t flattenDepth d).map (fun c => c.name) =
      fieldPathNames name t flattenDepth := by
  unfold processZodTypeWithFlattening fieldPathNames
  by_cases h : shouldFlattenType t flattenDepth
  · simp [h, map_name_processNestedStructure]
  · simp [h, processZodTypeToColumn]

/-- Setting the primary-key flag on the first matching column keeps the
column names (and their order). -/
theorem map_name_setPrimaryKeyOnFirst (cols : List ColumnDefinition)
    (pk : String) :
    (setPrimaryKeyOnFirst cols pk).map (fun c => c.name) =
      cols.map (fun c => c.name) := by
  induction cols with
  | nil => rfl
  | cons c rest ih =>
      by_cases h : c.name == pk <;> simp [setPrimaryKeyOnFirst, h, ih]

/-- The extractor's primary-key post-processing fold keeps the column names
(and their order). -/
theorem map_name_applyPrimaryKeyFold (pks : List String) :
    ∀ (cols : List ColumnDefinition) (acc2 : List String),
      ((pks.foldl applyPrimaryKeyStep (cols, acc2)).1).map (fun c => c.name) =
        cols.map (fun c => c.name) := by
  induction pks with
  | nil => intro cols acc2; rfl
  | cons p rest ih =>
      intro cols acc2
      simp only [List.foldl_cons, applyPrimaryKeyStep]
      rw [ih, map_name_setPrimaryKeyOnFirst]

/-- C9 (counterexample): the claim says the derived column list (on both
paths) starts with the auto-ID column *if enabled*.  With
`autoId = {enabled: false}` the two paths disagree, so no single reading of
the claim holds on both: `extractTableStructure` still emits the `id`
column first (`generateAutoIdConfig` returns a non-null config and the
extractor never rechecks `enabled`), while the CREATE TABLE statement omits
it (`getAutoIdColumn` renders `""` for a disabled config). -/
theorem column_order_counterexample :
    (extractTableStructure [("a", .zString false)]
        ⟨.sqlite, .pkNone, [], 2, [], false, .aconfig ⟨false, none, none⟩⟩).columns.map
        (fun c => c.name) = ["id", "a"] ∧
    createTableDDL "t" [("a", .zString false)]
        ⟨.sqlite, .pkNone, [], 2, [], false, .aconfig ⟨false, none, none⟩⟩ =
      "CREATE TABLE IF NOT EXISTS \x22t\x22 (\n  \x22a\x22 TEXT NOT NULL\n);" := by
  decide

/-- C9 (amended): on every `(schema, options)` input the derived column
list is ordered `[autoId?, timestamps?, startExtras..., schemaColumns...,
endExtras...]` on both paths, where the schema columns are the flattened
path names in field-declaration order and extras keep caller order; the
auto-ID slot is occupied in `extractTableStructure` whenever the raw
`autoId` option is truthy (even a disabled config object), while the CREATE
TABLE statement fills it only when the option is truthy and enabled (its
column-definition segments are assembled as start ++ main ++ end ++
constraints). -/
theorem column_ordering_invariant (shape : List (String × SchemaNode))
    (opts : TableOptions) (tab : String) :
    (extractTableStructure shape opts).columns.map (fun c => c.name) =
      (match generateAutoIdConfig opts.autoId with
       | some cfg => [jsNameOrId cfg.name]
       | none => []) ++
      (if opts.timestamps then ["created_at", "updated_at"] else []) ++
      (filterExtraColumnsByPosition opts.extraColumns .colStart).map
        (fun c => c.name) ++
      (shape.flatMap fun kv => fieldPathNames kv.1 kv.2 opts.flattenDepth) ++
      (filterExtraColumnsByPosition opts.extraColumns .colEnd).map
        (fun c => c.name) ∧
    createTableDDL tab shape opts =
      opts.indexes.foldl (fun sql kv =>
        sql ++ "\nCREATE INDEX IF NOT EXISTS " ++
          quoteIdentifier kv.1 opts.dialect ++ " ON " ++
          quoteIdentifier tab opts.dialect ++ " (" ++
          String.intercalate ", "
            (kv.2.map fun c => quoteIdentifier c opts.dialect) ++ ");")
        ("CREATE TABLE IF NOT EXISTS " ++ quoteIdentifier tab opts.dialect ++
         " (\n  " ++
         String.intercalate ",\n  "
           (ddlStartCols opts ++
            ddlMainCols shape opts.primaryKey opts.flattenDepth opts.dialect ++
            ddlEndCols opts ++ ddlConstraints opts) ++ "\n);") := by
  constructor
  · simp only [extractTableStructure]
    rw [map_name_applyPrimaryKeyFold]
    cases hcfg : generateAutoIdConfig opts.autoId <;>
      by_cases hts : opts.timestamps <;>
        simp [hcfg, hts, List.map_append, List.map_flatMap, List.map_map,
          Function.comp_def, extraToColumnDefinition, map_name_withFlattening]
  · rfl

/-- A `ZodDefault` surviving `unwrapOptionalTypes`'s third strip means the
node had two directly nested `Default` layers there. -/
theorem stripDefaultOnce_default (u i : SchemaNode) (v : String)
    (h : stripDefaultOnce u = .zDefault i v) : 2 ≤ wrapperDefaults u := by
  cases u <;> (simp_all [stripDefaultOnce, wrapperDefaults]; try omega)

/-- Stripping one `Optional` layer keeps the wrapper-default count. -/
theorem wrapperDefaults_stripOptional (t : SchemaNode) :
    wrapperDefaults (stripOptionalOnce t).1 = wrapperDefaults t := by
  cases t <;> rfl

/-- Stripping one `Nullable` layer keeps the wrapper-default count. -/
theorem wrapperDefaults_stripNullable (t : SchemaNode) :
    wrapperDefaults (stripNullableOnce t).1 = wrapperDefaults t := by
  cases t <;> rfl

/-- If `unwrapOptionalTypes` leaves a `ZodDefault` at the head, the field
had at least two `Default` wrapper layers. -/
theorem unwrap_default_needs_two (t i : SchemaNode) (v : String)
    (h : (unwrapOptionalTypes t).type = .zDefault i v) :
    2 ≤ wrapperDefaults t := by
  have h2 := stripDefaultOnce_default
    (stripNullableOnce (stripOptionalOnce t).1).1 i v h
  rw [wrapperDefaults_stripNullable, wrapperDefaults_stripOptional] at h2
  exact h2

/-- C10 (counterexample): the claim says the `ZodDefault` branch of
`processZodTypeToColumn` is unreachable and every schema-derived column has
an undefined `defaultValue`.  A field wrapped in two `Default` layers
(`z.string().default("x").default("y")`) refutes it: `unwrapOptionalTypes`
strips only the outer `Default`, the branch fires, and the inner default
`"x"` is recorded. -/
theorem double_default_counterexample :
    (processZodTypeToColumn "a"
        (.zDefault (.zDefault (.zString false) "x") "y") .sqlite).defaultValue =
      some "x" ∧
    ¬ (processZodTypeToColumn "a"
        (.zDefault (.zDefault (.zString false) "x") "y") .sqlite).defaultValue =
      none := by
  decide

/-- C10 (amended): for every schema field whose wrapper chain carries at
most one `Default` layer — in particular every field without directly
nested defaults — the derived column's `defaultValue` is undefined:
`unwrapOptionalTypes` strips the lone `ZodDefault` before
`processZodTypeToColumn`'s `ZodDefault` check runs.  (Every schema-derived
column of `extractTableStructure` is produced by `processZodTypeToColumn`
on some field or nested-field type.) -/
theorem single_default_no_default_value (name : String) (t : SchemaNode)
    (d : SQLDialect) (h : wrapperDefaults t ≤ 1) :
    (processZodTypeToColumn name t d).defaultValue = none := by
  simp only [processZodTypeToColumn]
  cases hu : (unwrapOptionalTypes t).type with
  | zDefault i v =>
      exact absurd (unwrap_default_needs_two t i v hu) (by omega)
  | zString b => rfl
  | zNumber b => rfl
  | zBoolean => rfl
  | zDate => rfl
  | zEnum => rfl
  | zArray e => rfl
  | zObject fs => rfl
  | zOptional i => rfl
  | zNullable i => rfl
  | zUnknown => rfl

/-- Closed witness for the amended C10 rule: a single-`Default` field keeps
`defaultValue = none`. -/
theorem single_default_no_default_value_witness :
    wrapperDefaults (.zDefault (.zString false) "x") ≤ 1 ∧
    (processZodTypeToColumn "a" (.zDefault (.zString false) "x")
        .sqlite).defaultValue = none := by
  exact ⟨by decide,
    single_default_no_default_value "a" (.zDefault (.zString false) "x")
      .sqlite (by decide)⟩

/-- A string is a prefix (at the character-data level) of itself followed by
anything. -/
theorem data_prefix_append (a b : String) : a.data <+: (a ++ b).data := by
  rw [String.data_append]
  exact List.prefix_append a.data b.data

/-- Every `ALTER TABLE ADD COLUMN` statement starts with `"ALTER TABLE "`. -/
theorem alter_sql_starts_with_alter (tab cn : String) (cd : ColumnDefinition)
    (d : SQLDialect) :
    "ALTER TABLE ".data <+: (alterAddColumnSQL tab cn cd d).data := by
  unfold alterAddColumnSQL
  simp only [String.data_append, List.append_assoc]
  exact List.prefix_append _ _

/-- C2: when introspection throws or reports zero columns (the table does
not exist), `migrateTableSchema` returns normally, executes no SQL beyond
the introspection query itself, and performs no migration. -/
theorem migrate_nonexistent_table_noop (tab : String)
    (shape : List (String × SchemaNode)) (opts : TableOptions)
    (allowDrop : Bool) (introspection : Option (List String))
    (rows : List BackupRow)
    (h : introspection = none ∨ introspection = some []) :
    migrateTableSchema tab shape opts allowDrop introspection rows =
      ([introspectionSQL tab opts.dialect], .ok) := by
  rcases h with h | h <;> subst h <;>
    simp [migrateTableSchema, getTableColumns]

/-- Closed witness for C2: a throwing introspection yields exactly the
introspection statement and a normal return. -/
theorem migrate_nonexistent_table_noop_witness :
    migrateTableSchema "t" [("a", .zString false)] defaultOptions false
      none [] = (["PRAGMA table_info(t)"], .ok) :=
  migrate_nonexistent_table_noop "t" [("a", .zString false)] defaultOptions
    false none [] (Or.inl rfl)

/-- C1 (counterexample): the claim says a blocked destructive migration
sends no mutating SQL before the error.  With live columns
`{id, obsolete}` and derived columns `{id, name}`, the additions loop runs
first: the statement `ALTER TABLE t ADD COLUMN "name" TEXT` is sent to the
client, and only afterwards is the blocking error for `obsolete` raised. -/
theorem migrate_blocked_counterexample :
    migrateTableSchema "t" [("id", .zString false), ("name", .zString false)]
        defaultOptions false (some ["id", "obsolete"]) [] =
      (["PRAGMA table_info(t)",
        "ALTER TABLE t ADD COLUMN \x22name\x22 TEXT"],
       .error (migrationBlockedMessage "t" ["obsolete"])) ∧
    (migrateTableSchema "t" [("id", .zString false), ("name", .zString false)]
        defaultOptions false (some ["id", "obsolete"]) []).1.contains
      "ALTER TABLE t ADD COLUMN \x22name\x22 TEXT" = true := by
  decide

/-- C1 (amended): when the diff yields a non-empty `columnsToRemove` and
`allowDrop` is not set, `migrateTableSchema` throws the blocking error
naming exactly the columns to remove, and the statements sent before the
error are the introspection query followed by the `ALTER TABLE ADD COLUMN`
statements for `columnsToAdd` — no backup `SELECT`, `DROP`, `CREATE` or
`INSERT` is sent, and when `columnsToAdd` is empty no statement beyond the
introspection query is sent at all.  (Additive `ALTER` statements, however,
do precede the error whenever `columnsToAdd` is non-empty.) -/
theorem migrate_blocked_trace (tab : String)
    (shape : List (String × SchemaNode)) (opts : TableOptions)
    (live : List String) (rows : List BackupRow)
    (hlive : live ≠ [])
    (hrem : live.filter (fun c =>
      !((extractTableStructure shape opts).columns.map
          (fun c => c.name)).contains c) ≠ []) :
    migrateTableSchema tab shape opts false (some live) rows =
      ([introspectionSQL tab opts.dialect] ++
        (((extractTableStructure shape opts).columns.map
            (fun c => c.name)).filter (fun c => !live.contains c)).filterMap
          (fun columnName =>
            ((extractTableStructure shape opts).columns.find?
                (fun col => col.name == columnName)).map
              (fun columnDef =>
                alterAddColumnSQL tab columnName columnDef opts.dialect)),
       .error (migrationBlockedMessage tab
         (live.filter (fun c =>
           !((extractTableStructure shape opts).columns.map
               (fun c => c.name)).contains c)))) ∧
    (∀ s ∈ (migrateTableSchema tab shape opts false (some live) rows).1,
      s = introspectionSQL tab opts.dialect ∨
        "ALTER TABLE ".data <+: s.data) ∧
    ((((extractTableStructure shape opts).columns.map
        (fun c => c.name)).filter (fun c => !live.contains c)) = [] →
      (migrateTableSchema tab shape opts false (some live) rows).1 =
        [introspectionSQL tab opts.dialect]) := by
  have hmain : migrateTableSchema tab shape opts false (some live) rows =
      ([introspectionSQL tab opts.dialect] ++
        (((extractTableStructure shape opts).columns.map
            (fun c => c.name)).filter (fun c => !live.contains c)).filterMap
          (fun columnName =>
            ((extractTableStructure shape opts).columns.find?
                (fun col => col.name == columnName)).map
              (fun columnDef =>
                alterAddColumnSQL tab columnName columnDef opts.dialect)),
       .error (migrationBlockedMessage tab
         (live.filter (fun c =>
           !((extractTableStructure shape opts).columns.map
               (fun c => c.name)).contains c)))) := by
    simp only [migrateTableSchema, getTableColumns, Option.getD]
    rw [if_neg hlive, if_neg hrem]
    simp
  refine ⟨hmain, ?_, ?_⟩
  · intro s hs
    rw [hmain] at hs
    simp only [List.cons_append, List.nil_append, List.mem_cons] at hs
    rcases hs with hs | hs
    · exact Or.inl hs
    · right
      rw [List.mem_filterMap] at hs
      obtain ⟨cn, _, hmap⟩ := hs
      rw [Option.map_eq_some'] at hmap
      obtain ⟨cd, _, hcd⟩ := hmap
      rw [← hcd]
      exact alter_sql_starts_with_alter tab cn cd opts.dialect
  · intro h0
    rw [hmain]
    simp only [h0, List.filterMap_nil, List.append_nil]

/-- Closed witness for the amended C1 rule: live columns `{id, obsolete}`
against derived `{id}` (no additions) — only the introspection query is
sent and the blocking error names `obsolete`. -/
theorem migrate_blocked_trace_witness :
    migrateTableSchema "t" [("id", .zString false)] defaultOptions false
        (some ["id", "obsolete"]) [] =
      (["PRAGMA table_info(t)"],
       .error (migrationBlockedMessage "t" ["obsolete"])) := by
  have h := migrate_blocked_trace "t" [("id", .zString false)] defaultOptions
    ["id", "obsolete"] [] (by decide) (by decide)
  rw [h.1]
  decide

/-- C3: a column added by the migration engine is rendered as
`ALTER TABLE <table> ADD COLUMN "<name>" <type>[ DEFAULT <v>]` — the
rendering ignores the `notNull` flag entirely, every type the structure
extractor can derive for a schema field is in `schemaFieldSqlTypes`, and
for any column with such a type and no default the statement's
column-definition part contains no `NOT NULL`. -/
theorem alter_add_column_no_not_null (tab cn : String)
    (col : ColumnDefinition) (d : SQLDialect) (b : Bool) :
    alterAddColumnSQL tab cn col d =
      "ALTER TABLE " ++ tab ++ " ADD COLUMN \x22" ++ cn ++ "\x22 " ++
        getColumnDefinition col d ∧
    getColumnDefinition { col with notNull := b } d =
      getColumnDefinition col d ∧
    (∀ (nm : String) (t : SchemaNode),
      (processZodTypeToColumn nm t d).type ∈ schemaFieldSqlTypes) ∧
    (col.type ∈ schemaFieldSqlTypes → col.defaultValue = none →
      ¬ ("NOT NULL".data <:+: (getColumnDefinition col d).data)) := by
  refine ⟨rfl, rfl, ?_, ?_⟩
  · intro nm t
    simp only [processZodTypeToColumn]
    cases (unwrapOptionalTypes t).type with
    | zNumber isInt =>
        cases isInt <;> cases d <;>
          simp [mapTypeToSql, schemaFieldSqlTypes]
    | zString b2 => simp [schemaFieldSqlTypes]
    | zBoolean => simp [schemaFieldSqlTypes]
    | zDate => simp [schemaFieldSqlTypes]
    | zEnum => simp [schemaFieldSqlTypes]
    | zArray e => simp [schemaFieldSqlTypes]
    | zObject fs => simp [schemaFieldSqlTypes]
    | zOptional i => simp [schemaFieldSqlTypes]
    | zNullable i => simp [schemaFieldSqlTypes]
    | zDefault i v => simp [schemaFieldSqlTypes]
    | zUnknown => simp [schemaFieldSqlTypes]
  · intro hmem hdef
    simp only [schemaFieldSqlTypes, List.mem_cons, List.mem_singleton,
      List.not_mem_nil, or_false] at hmem
    rcases hmem with h | h | h | h | h | h <;> cases d <;>
      simp [getColumnDefinition, h, hdef, migSqliteTypeMap] <;> decide

/-- Closed witness for C3: a derived integer column with `notNull = true`
still yields a bare `INTEGER` column definition with no `NOT NULL`. -/
theorem alter_add_column_no_not_null_witness :
    alterAddColumnSQL "t" "n"
        ⟨"n", "INTEGER", true, none, false, false⟩ .sqlite =
      "ALTER TABLE t ADD COLUMN \x22n\x22 INTEGER" ∧
    ¬ ("NOT NULL".data <:+:
        (getColumnDefinition ⟨"n", "INTEGER", true, none, false, false⟩
          .sqlite).data) := by
  have h := alter_add_column_no_not_null "t" "n"
    ⟨"n", "INTEGER", true, none, false, false⟩ .sqlite false
  exact ⟨by rw [h.1]; rfl, h.2.2.2 (by decide) rfl⟩

end Datazod
